import Mathlib

/-!
Shallow embedding of the chat-support backend: the persistence layer
(`backend/src/db/operations.ts`), the model gateway and prompt builder
(`backend/src/llm/llm.service.ts`, `backend/src/llm/prompts.ts`) and the
conversation orchestrator (`backend/src/services/chat.service.ts`), together
with proofs of the specification claims about them.

Environment values the code obtains at run time (`uuidv4()`, `Date.now()`,
the injected LLM service, the external provider) are passed as explicit
parameters.  Timestamps are kept as the stored integers (Unix milliseconds);
the ISO rendering applied on output is injective formatting that no claim
inspects.
-/

/-- Whitespace characters removed by JavaScript's `String.prototype.trim` (the
ASCII blanks plus no-break space, BOM and the Unicode line separators). -/
def isJsWhitespace (c : Char) : Bool :=
  c = ' ' || c = '\t' || c = '\n' || c = '\r' ||
  c = Char.ofNat 0x0B || c = Char.ofNat 0x0C || c = Char.ofNat 0xA0 ||
  c = Char.ofNat 0xFEFF || c = Char.ofNat 0x2028 || c = Char.ofNat 0x2029

/-- JavaScript `s.trim()`. -/
def jsTrim (s : String) : String :=
  ⟨((s.data.dropWhile isJsWhitespace).reverse.dropWhile isJsWhitespace).reverse⟩

/-- JavaScript `xs.slice(start)` with a single, possibly negative, start index:
a negative index counts from the end (clamped at zero), a non-negative one
from the front (clamped at the length). -/
def jsSliceFrom {α : Type} (xs : List α) (start : Int) : List α :=
  xs.drop (if start < 0 then xs.length - (-start).toNat else start.toNat)

/-- Matcher for an anchored regular expression made of fixed-width character
classes: a list of segment widths with a per-character predicate; the whole
character list must be consumed. -/
def matchSegs : List (Nat × (Char → Bool)) → List Char → Bool
  | [], cs => cs.isEmpty
  | (n, p) :: segs, cs =>
    decide (n ≤ cs.length) && (cs.take n).all p && matchSegs segs (cs.drop n)

/-- Character class `[0-9a-f]` with the regex's `/i` flag applied. -/
def isHexAnyCase (c : Char) : Bool :=
  c.isDigit || ('a' ≤ c && c ≤ 'f') || ('A' ≤ c && c ≤ 'F')

/-- Lowercase hexadecimal digit `[0-9a-f]`. -/
def isHexLower (c : Char) : Bool :=
  c.isDigit || ('a' ≤ c && c ≤ 'f')

/-- Literal hyphen of the UUID pattern. -/
def isDash (c : Char) : Bool := c = '-'

/-- Literal version nibble `4` of the UUID pattern. -/
def isFourChar (c : Char) : Bool := c = '4'

/-- Variant class `[89ab]` (lowercase). -/
def isVariantLower (c : Char) : Bool :=
  c = '8' || c = '9' || c = 'a' || c = 'b'

/-- Variant class `[89ab]` with the `/i` flag applied. -/
def isVariantAnyCase (c : Char) : Bool :=
  isVariantLower c || c = 'A' || c = 'B'

/-- Segment list of `ChatService.isValidUUID`'s regex
`/^[0-9a-f]{8}-[0-9a-f]{4}-4[0-9a-f]{3}-[89ab][0-9a-f]{3}-[0-9a-f]{12}$/i`. -/
def uuidRegexSegs : List (Nat × (Char → Bool)) :=
  [(8, isHexAnyCase), (1, isDash), (4, isHexAnyCase), (1, isDash),
   (1, isFourChar), (3, isHexAnyCase), (1, isDash),
   (1, isVariantAnyCase), (3, isHexAnyCase), (1, isDash), (12, isHexAnyCase)]

/-- ChatService.isValidUUID: anchored case-insensitive version-4 UUID check. -/
def isValidUUID (s : String) : Bool := matchSegs uuidRegexSegs s.data

/-- Segment list of the canonical lowercase version-4 UUID shape. -/
def uuidV4Segs : List (Nat × (Char → Bool)) :=
  [(8, isHexLower), (1, isDash), (4, isHexLower), (1, isDash),
   (1, isFourChar), (3, isHexLower), (1, isDash),
   (1, isVariantLower), (3, isHexLower), (1, isDash), (12, isHexLower)]

/-- Modelled from the spec: the conversation and message identifiers are drawn
from an external version-4 UUID generator (the `uuid` package's `v4()`, not
part of this repository), whose documented output is the canonical lowercase
hyphenated form with version nibble `4` and variant nibble in `[89ab]`. -/
def uuidV4Format (s : String) : Bool := matchSegs uuidV4Segs s.data

/-! ## Persistence store (`db/operations.ts`) -/

/-- Sender column of the messages table (`CHECK(sender IN ('user','assistant'))`). -/
inductive MessageSender
  | user
  | assistant
  deriving DecidableEq, Repr

/-- Row of the conversations table. -/
structure Conversation where
  id : String
  created_at : Nat
  deriving DecidableEq, Repr

/-- Row of the messages table. -/
structure Message where
  id : String
  conversation_id : String
  sender : MessageSender
  text : String
  created_at : Nat
  deriving DecidableEq, Repr

/-- The SQLite database: both tables, each in insertion (rowid) order. -/
structure Store where
  conversations : List Conversation
  messages : List Message
  deriving DecidableEq, Repr

/-- db `getConversation`: `SELECT id, created_at FROM conversations WHERE id = ?`,
`null` for an unknown id. -/
def getConversation (s : Store) (cid : String) : Option Conversation :=
  s.conversations.find? (fun c => c.id == cid)

/-- db `createConversation`: inserts a fresh row; the identifier and clock
reading (`uuidv4()`, `Date.now()`) are environment inputs passed explicitly. -/
def createConversation (s : Store) (id : String) (now : Nat) :
    Conversation × Store :=
  (⟨id, now⟩, ⟨s.conversations ++ [⟨id, now⟩], s.messages⟩)

/-- Failure of a db operation (`throw new Error('Conversation not found: …')`). -/
inductive DbError
  | conversationNotFound (cid : String)
  deriving DecidableEq, Repr

/-- db `saveMessage`: verifies the conversation exists, then inserts the row at
the end of the table and returns it. -/
def saveMessage (s : Store) (cid : String) (sender : MessageSender)
    (text : String) (mid : String) (now : Nat) :
    Except DbError (Message × Store) :=
  if (getConversation s cid).isSome then
    .ok (⟨mid, cid, sender, text, now⟩,
      ⟨s.conversations, s.messages ++ [⟨mid, cid, sender, text, now⟩]⟩)
  else
    .error (.conversationNotFound cid)

/-- Rows of the messages table belonging to one conversation, in insertion
(rowid) order. -/
def messagesOf (s : Store) (cid : String) : List Message :=
  s.messages.filter (fun m => m.conversation_id == cid)

/-- Comparison used by `ORDER BY created_at ASC`. -/
def msgLE (a b : Message) : Prop := a.created_at ≤ b.created_at

instance : DecidableRel msgLE := fun a b => Nat.decLe a.created_at b.created_at

instance : IsTotal Message msgLE := ⟨fun a b => Nat.le_total a.created_at b.created_at⟩

instance : IsTrans Message msgLE := ⟨fun _ _ _ => Nat.le_trans⟩

/-- Strict timestamp order between message rows. -/
def msgLT (a b : Message) : Prop := a.created_at < b.created_at

instance : DecidableRel msgLT := fun a b => Nat.decLt a.created_at b.created_at

/-- db `getConversationMessages`: verifies the conversation exists, then runs
`SELECT … WHERE conversation_id = ? ORDER BY created_at ASC`.  The schema has
no tiebreaker column, so the SQL specifies the result only up to the relative
order of equal-timestamp rows; `chronoRead` below states exactly that
contract, and every tie-sensitive property is settled against it (the ordering
claim) or under timestamps that exclude ties (the history-exclusion claim).
For an executable model this definition resolves the ties with a stable sort
of the rowid-ordered rows — one admissible resolution among others, relied on
by no judged theorem at tie inputs. -/
def getConversationMessages (s : Store) (cid : String) :
    Except DbError (List Message) :=
  if (getConversation s cid).isSome then
    .ok (List.insertionSort msgLE (messagesOf s cid))
  else
    .error (.conversationNotFound cid)

/-- Relational contract of `ORDER BY created_at ASC` on the messages of one
conversation: a result the SQL layer may return is some permutation of the
conversation's rows that is non-decreasing in `created_at`.  The table has no
tiebreaker column, so the relative order of equal-timestamp rows is not
specified by the query. -/
def chronoRead (s : Store) (cid : String) (out : List Message) : Prop :=
  out.Perm (messagesOf s cid) ∧ List.Sorted msgLE out

/-! ## Model gateway and prompt builder (`llm/types.ts`, `llm/prompts.ts`,
`llm/llm.service.ts`) -/

/-- Role of a turn in the history handed to the LLM service. -/
inductive MessageRole
  | user
  | assistant
  deriving DecidableEq, Repr

/-- One turn of LLM context (`ConversationMessage` of `llm/types.ts`). -/
structure ConversationMessage where
  role : MessageRole
  content : String
  deriving DecidableEq, Repr

/-- Error taxonomy of the LLM service (`LLMErrorType` of `llm/types.ts`). -/
inductive LLMErrorType
  | INVALID_API_KEY
  | RATE_LIMIT
  | TIMEOUT
  | NETWORK_ERROR
  | CONTENT_FILTER
  | INVALID_REQUEST
  | UNKNOWN
  deriving DecidableEq, Repr

/-- Typed error of the LLM service; the `originalError` payload carries no
behaviour and is omitted. -/
structure LLMError where
  type : LLMErrorType
  message : String
  userMessage : String
  statusCode : Option Nat
  deriving DecidableEq, Repr

/-- Fixed instruction block `SYSTEM_PROMPT` of `llm/prompts.ts`. -/
def SYSTEM_PROMPT : String :=
  "You are a helpful and professional e-commerce customer support agent.\n\nYour role:\n- Assist customers with questions about products, orders, shipping, and returns\n- Provide accurate information based on our company policies\n- Be friendly, concise, and professional\n- If you don't know something, admit it and offer to connect them with a human agent\n\nYour capabilities:\n- Answer questions about shipping, returns, business hours, and general policies\n- Help customers track orders\n- Provide product information\n- Assist with account issues\n\nGuidelines:\n- Keep responses concise (2-3 sentences when possible)\n- Use the FAQ knowledge provided below when applicable\n- Be empathetic and understanding\n- Never make up information you're not sure about\n- If a question is outside your knowledge, say \"I'd be happy to connect you with a human agent who can help with that.\"\n\nIMPORTANT: Only provide information based on the FAQ knowledge below. Do not invent policies or make promises."

/-- Fixed knowledge block `FAQ_KNOWLEDGE` of `llm/prompts.ts`. -/
def FAQ_KNOWLEDGE : String :=
  "\n=== SHIPPING INFORMATION ===\n\nStandard Shipping:\n- Delivery time: 5-7 business days\n- Cost: $5.99 (Free on orders over $50)\n- Tracking: Provided via email once shipped\n\nExpress Shipping:\n- Delivery time: 2-3 business days\n- Cost: $14.99 (Free on orders over $100)\n- Tracking: Provided via email once shipped\n\nOvernight Shipping:\n- Delivery time: 1 business day\n- Cost: $24.99\n- Orders must be placed before 2 PM EST\n- Available for domestic orders only\n\nInternational Shipping:\n- Delivery time: 10-15 business days\n- Cost: Calculated at checkout based on destination\n- Customs fees may apply (customer's responsibility)\n\n=== RETURNS & REFUNDS ===\n\nReturn Policy:\n- 30-day return window from delivery date\n- Items must be unused and in original packaging\n- Return shipping: Customer responsibility ($7.99 prepaid label available)\n- Refund processing: 5-7 business days after receiving return\n\nHow to Return:\n1. Log into your account\n2. Go to \"Order History\"\n3. Select the order and click \"Return Items\"\n4. Print the return label\n5. Ship within 7 days of requesting return\n\nNon-Returnable Items:\n- Final sale items\n- Personalized/custom products\n- Opened software or digital products\n- Intimate apparel (for hygiene reasons)\n\nExchanges:\n- We don't offer direct exchanges\n- Return the original item and place a new order\n- Express shipping will be applied to replacement order\n\n=== BUSINESS HOURS ===\n\nCustomer Support Hours:\n- Monday-Friday: 9 AM - 8 PM EST\n- Saturday: 10 AM - 6 PM EST\n- Sunday: 12 PM - 5 PM EST\n- Holidays: Closed on major US holidays\n\nResponse Times:\n- Phone: Immediate during business hours\n- Email: Within 24 hours on business days\n- Live Chat: Within 5 minutes during business hours\n\nStore Hours (Physical Locations):\n- Monday-Saturday: 10 AM - 9 PM\n- Sunday: 11 AM - 6 PM\n- Holiday hours may vary\n\n=== CONTACT INFORMATION ===\n\nPhone: 1-800-SHOP-NOW (1-800-746-7669)\nEmail: support@example-store.com\nLive Chat: Available on website during business hours\n"

/-- prompts `buildSystemPrompt`: instruction block, blank line, knowledge block. -/
def buildSystemPrompt : String :=
  SYSTEM_PROMPT ++ "\n\n" ++ FAQ_KNOWLEDGE

/-- prompts `formatConversationHistory`: an empty history becomes a fixed
start-of-conversation marker; otherwise the most recent `maxMessages` turns
(`history.slice(-maxMessages)`) are rendered as `"<label>: <content>"` with
`Customer` for the user role and `Agent` otherwise, joined by blank lines,
under a `Previous conversation:` heading. -/
def formatConversationHistory (history : List ConversationMessage)
    (maxMessages : Nat) : String :=
  if history.isEmpty then
    "This is the start of the conversation."
  else
    "Previous conversation:\n\n" ++ String.intercalate "\n\n"
      ((jsSliceFrom history (-(maxMessages : Int))).map (fun msg =>
        (if msg.role = MessageRole.user then "Customer" else "Agent") ++
          ": " ++ msg.content))

/-- Configuration of the LLM service.  The floating-point `temperature` field
never influences control flow and is omitted. -/
structure LLMConfig where
  apiKey : String
  model : String
  maxTokens : Nat
  timeoutMs : Nat
  maxHistoryMessages : Nat
  deriving DecidableEq, Repr

/-- Default configuration values of `llm.service.ts` (`DEFAULT_CONFIG` has no
`apiKey`; the constructor merges it in from the caller's config). -/
structure LLMDefaults where
  model : String
  maxTokens : Nat
  timeoutMs : Nat
  maxHistoryMessages : Nat
  deriving DecidableEq, Repr

/-- The `DEFAULT_CONFIG` constant of `llm.service.ts`. -/
def DEFAULT_CONFIG : LLMDefaults :=
  ⟨"gemini-2.5-flash", 1000, 30000, 10⟩

/-- Configuration after the constructor's `{...DEFAULT_CONFIG, ...config}`
merge when the caller supplies only an API key (as `createLLMService` does). -/
def mergedConfig (apiKey : String) : LLMConfig :=
  ⟨apiKey, DEFAULT_CONFIG.model, DEFAULT_CONFIG.maxTokens,
    DEFAULT_CONFIG.timeoutMs, DEFAULT_CONFIG.maxHistoryMessages⟩

/-- Full prompt assembled inside `generateReply`: system prompt, formatted
history, the new customer message and the trailing `Agent:` marker. -/
def fullPrompt (cfg : LLMConfig) (history : List ConversationMessage)
    (userMessage : String) : String :=
  buildSystemPrompt ++ "\n\n" ++
    formatConversationHistory history cfg.maxHistoryMessages ++
    "\n\nCustomer: " ++ userMessage ++ "\n\nAgent:"

/-- Shape of the one provider invocation `this.model.generateContent(fullPrompt)`.
The provider SDK's `generateContent(request, requestOptions?)` takes the abort
signal and a per-request timeout through its second argument; the source
passes only the prompt, so the invocation carries no signal and no timeout:
the `AbortController` the surrounding code arms with `setTimeout` is connected
to nothing. -/
structure GenerateContentInvocation where
  request : String
  signalAttached : Bool
  timeoutOption : Option Nat
  deriving DecidableEq, Repr

/-- The provider invocation `generateReply` performs, as built by the source. -/
def generateContentInvocation (cfg : LLMConfig)
    (history : List ConversationMessage) (userMessage : String) :
    GenerateContentInvocation :=
  ⟨fullPrompt cfg history userMessage, false, none⟩

/-- Outcome of the external provider call: the text of a fulfilled response,
or the name and message of the rejection it threw. -/
inductive ProviderOutcome
  | success (text : String)
  | failure (name message : String)

/-- JavaScript `s.toLowerCase()` (over the characters this code compares). -/
def lowerStr (s : String) : String := s.map Char.toLower

/-- Whether the first character list occurs inside the second. -/
def isInfixList : List Char → List Char → Bool
  | needle, [] => needle.isEmpty
  | needle, c :: rest => needle.isPrefixOf (c :: rest) || isInfixList needle rest

/-- JavaScript `haystack.includes(needle)`. -/
def containsStr (haystack needle : String) : Bool :=
  isInfixList needle.data haystack.data

/-- LLMService.handleError classification of a raw (non-`LLMError`) failure by
string-matching its lowercased message (and name), in source order. -/
def llmClassifyError (name message : String) : LLMError :=
  let lmsg := lowerStr message
  if containsStr lmsg "api key" || containsStr lmsg "invalid_api_key" ||
      containsStr lmsg "authentication" || containsStr lmsg "unauthorized" ||
      containsStr lmsg "401" then
    ⟨.INVALID_API_KEY, "Invalid or expired API key",
      "AI service is unavailable. Please contact support.", some 401⟩
  else if containsStr lmsg "rate limit" || containsStr lmsg "quota" ||
      containsStr lmsg "429" || containsStr lmsg "too many requests" then
    ⟨.RATE_LIMIT, "Rate limit exceeded",
      "Our AI service is currently busy. Please try again in a moment.", some 429⟩
  else if containsStr lmsg "timeout" || containsStr lmsg "timed out" ||
      containsStr lmsg "aborted" || name = "AbortError" then
    ⟨.TIMEOUT, "Request timed out",
      "The AI is taking too long to respond. Please try asking again.", some 408⟩
  else if containsStr lmsg "network" || containsStr lmsg "econnrefused" ||
      containsStr lmsg "enotfound" || containsStr lmsg "fetch failed" then
    ⟨.NETWORK_ERROR, "Network error",
      "Unable to connect to AI service. Please check your connection and try again.",
      some 503⟩
  else if containsStr lmsg "blocked" || containsStr lmsg "safety" ||
      containsStr lmsg "content filter" || containsStr lmsg "harm" then
    ⟨.CONTENT_FILTER, "Content filtered by safety settings",
      "I apologize, but I can't respond to that. Please rephrase your question.",
      some 400⟩
  else if containsStr lmsg "invalid" || containsStr lmsg "400" then
    ⟨.INVALID_REQUEST, "Invalid request",
      "I had trouble understanding your request. Could you try rephrasing?",
      some 400⟩
  else
    ⟨.UNKNOWN, "Unknown error: " ++ message,
      "I'm having technical difficulties. Please try again or contact support if the problem persists.",
      some 500⟩

/-- LLMService.generateReply with the external provider call abstracted as a
function from the prompt to an outcome.  A thrown `LLMError` passes through
`handleError` unchanged (`instanceof LLMError` branch); a raw rejection is
classified by `llmClassifyError`. -/
def llmGenerateReply (cfg : LLMConfig) (provider : String → ProviderOutcome)
    (history : List ConversationMessage) (userMessage : String) :
    Except LLMError String :=
  if jsTrim userMessage = "" then
    .error ⟨.INVALID_REQUEST, "User message is empty",
      "Please provide a message.", some 400⟩
  else
    match provider (fullPrompt cfg history userMessage) with
    | .failure name message => .error (llmClassifyError name message)
    | .success text =>
      if jsTrim text = "" then
        .error ⟨.UNKNOWN, "Empty response from LLM",
          "I apologize, but I'm having trouble generating a response. Please try again.",
          some 500⟩
      else
        .ok (jsTrim text)

/-! ## Conversation orchestrator (`services/types.ts`, `services/chat.service.ts`) -/

/-- Error taxonomy of the chat service (`ChatErrorType` of `services/types.ts`). -/
inductive ChatErrorType
  | CONVERSATION_NOT_FOUND
  | INVALID_INPUT
  | AI_SERVICE_ERROR
  | DATABASE_ERROR
  | UNKNOWN_ERROR
  deriving DecidableEq, Repr

/-- Domain-safe error of the chat service. -/
structure ChatError where
  type : ChatErrorType
  message : String
  userMessage : String
  statusCode : Nat
  deriving DecidableEq, Repr

/-- Request of `sendMessage`. -/
structure SendMessageRequest where
  message : String
  sessionId : Option String
  deriving DecidableEq, Repr

/-- Response of `sendMessage`; the timestamp string is captured at return
time (`new Date().toISOString()`), an environment input here. -/
structure SendMessageResponse where
  reply : String
  sessionId : String
  timestamp : String
  deriving DecidableEq, Repr

/-- Request of `getHistory`. -/
structure GetHistoryRequest where
  sessionId : String
  limit : Option Int
  deriving DecidableEq, Repr

/-- One message of a `getHistory` response; `timestamp` keeps the stored
integer that the code renders as an ISO string. -/
structure HistoryMessage where
  id : String
  sender : MessageSender
  text : String
  timestamp : Nat
  deriving DecidableEq, Repr

/-- Response of `getHistory`. -/
structure GetHistoryResponse where
  sessionId : String
  messages : List HistoryMessage
  deriving DecidableEq, Repr

/-- JavaScript truthiness of an optional session id string: the code guards
with `if (request.sessionId …)`, under which the empty string behaves exactly
like an absent one. -/
def sessionIdIfTruthy : Option String → Option String
  | some sid => if sid = "" then none else some sid
  | none => none

/-- ChatService.validateSendMessageRequest.  String length is the count of
characters (the code counts UTF-16 units; the two agree on the basic
multilingual plane). -/
def validateSendMessageRequest (req : SendMessageRequest) : Option ChatError :=
  if req.message = "" || jsTrim req.message = "" then
    some ⟨.INVALID_INPUT, "Message is required", "Please provide a message.", 400⟩
  else if req.message.length > 10000 then
    some ⟨.INVALID_INPUT, "Message too long",
      "Message is too long. Please keep it under 10,000 characters.", 400⟩
  else
    match sessionIdIfTruthy req.sessionId with
    | some sid =>
      if isValidUUID sid then none
      else some ⟨.INVALID_INPUT, "Invalid session ID format",
        "Invalid session ID. Please start a new conversation.", 400⟩
    | none => none

/-- ChatService.getOrCreateConversation: a truthy session id must resolve to
an existing conversation; otherwise a fresh conversation is created with the
environment's identifier and clock reading. -/
def getOrCreateConversation (s : Store) (freshId : String) (now : Nat)
    (sessionId : Option String) : Except ChatError (String × Store) :=
  match sessionIdIfTruthy sessionId with
  | some sid =>
    match getConversation s sid with
    | some _ => .ok (sid, s)
    | none => .error ⟨.CONVERSATION_NOT_FOUND, "Conversation not found: " ++ sid,
        "Conversation not found. Starting a new conversation.", 404⟩
  | none =>
    let cs := createConversation s freshId now
    .ok (cs.1.id, cs.2)

/-- ChatService.saveUserMessage: wraps a db failure as `DATABASE_ERROR` (the
technical message interpolates the underlying error; kept fixed here). -/
def saveUserMessage (s : Store) (cid message mid : String) (now : Nat) :
    Except ChatError Store :=
  match saveMessage s cid .user message mid now with
  | .ok ms => .ok ms.2
  | .error _ => .error ⟨.DATABASE_ERROR, "Failed to save user message",
      "Failed to save your message. Please try again.", 500⟩

/-- ChatService.saveAssistantMessage: wraps a db failure as `DATABASE_ERROR`. -/
def saveAssistantMessage (s : Store) (cid message mid : String) (now : Nat) :
    Except ChatError Store :=
  match saveMessage s cid .assistant message mid now with
  | .ok ms => .ok ms.2
  | .error _ => .error ⟨.DATABASE_ERROR, "Failed to save assistant message",
      "Failed to save AI response. Please try again.", 500⟩

/-- Conversion of a stored message to an LLM context turn
(`msg.sender === 'user' ? 'user' : 'assistant'`). -/
def toConversationMessage (m : Message) : ConversationMessage :=
  ⟨if m.sender = MessageSender.user then .user else .assistant, m.text⟩

/-- ChatService.getConversationHistory: loads the conversation's messages and
drops the last one (`messages.slice(0, -1)`), the just-appended user
message; a db failure is wrapped as `DATABASE_ERROR`. -/
def getConversationHistory (s : Store) (cid : String) :
    Except ChatError (List ConversationMessage) :=
  match getConversationMessages s cid with
  | .ok msgs => .ok (msgs.dropLast.map toConversationMessage)
  | .error _ => .error ⟨.DATABASE_ERROR, "Failed to fetch conversation history",
      "Failed to load conversation history.", 500⟩

/-- JavaScript `error.statusCode || 500`. -/
def jsStatusOr500 : Option Nat → Nat
  | some c => if c = 0 then 500 else c
  | none => 500

/-- ChatService.generateAIReply: an `LLMError` becomes an `AI_SERVICE_ERROR`
carrying the gateway's user-safe message and status code. -/
def generateAIReply (llm : List ConversationMessage → String → Except LLMError String)
    (history : List ConversationMessage) (userMessage : String) :
    Except ChatError String :=
  match llm history userMessage with
  | .ok r => .ok r
  | .error e => .error ⟨.AI_SERVICE_ERROR, "LLM error: " ++ e.message,
      e.userMessage, jsStatusOr500 e.statusCode⟩

/-- Environment inputs of one `sendMessage` run: the fresh identifiers and
clock readings the code obtains from `uuidv4()` and `Date.now()`, the
response timestamp string, and the injected LLM service. -/
structure ChatEnv where
  freshConvId : String
  convTime : Nat
  userMsgId : String
  userMsgTime : Nat
  asstMsgId : String
  asstMsgTime : Nat
  respTimestamp : String
  llm : List ConversationMessage → String → Except LLMError String

/-- ChatService.sendMessage.  Returns the result together with the store as
mutated by the steps that completed before any failure (database writes are
not rolled back).  Every error raised along the way is already a `ChatError`,
which `handleError` passes through unchanged. -/
def sendMessage (s : Store) (env : ChatEnv) (req : SendMessageRequest) :
    Except ChatError SendMessageResponse × Store :=
  match validateSendMessageRequest req with
  | some e => (.error e, s)
  | none =>
    match getOrCreateConversation s env.freshConvId env.convTime req.sessionId with
    | .error e => (.error e, s)
    | .ok (cid, s1) =>
      match saveUserMessage s1 cid req.message env.userMsgId env.userMsgTime with
      | .error e => (.error e, s1)
      | .ok s2 =>
        match getConversationHistory s2 cid with
        | .error e => (.error e, s2)
        | .ok history =>
          match generateAIReply env.llm history req.message with
          | .error e => (.error e, s2)
          | .ok aiReply =>
            match saveAssistantMessage s2 cid aiReply env.asstMsgId env.asstMsgTime with
            | .error e => (.error e, s2)
            | .ok s3 => (.ok ⟨aiReply, cid, env.respTimestamp⟩, s3)

/-- Conversion of a stored message to a history entry. -/
def toHistoryMessage (m : Message) : HistoryMessage :=
  ⟨m.id, m.sender, m.text, m.created_at⟩

/-- ChatService.getHistory.  The limit is applied as
`request.limit ? messages.slice(-request.limit) : messages`: a limit of `0`
is falsy and ignored, a negative limit makes the slice index positive and so
drops the oldest messages.  A `Conversation not found` error thrown below the
existence check would be string-matched by `handleError` back to
`CONVERSATION_NOT_FOUND`. -/
def getHistory (s : Store) (req : GetHistoryRequest) :
    Except ChatError GetHistoryResponse :=
  if !isValidUUID req.sessionId then
    .error ⟨.INVALID_INPUT, "Invalid session ID format",
      "Invalid session ID. Please start a new conversation.", 400⟩
  else
    match getConversation s req.sessionId with
    | none => .error ⟨.CONVERSATION_NOT_FOUND,
        "Conversation not found: " ++ req.sessionId,
        "Conversation not found. Please start a new conversation.", 404⟩
    | some _ =>
      match getConversationMessages s req.sessionId with
      | .error _ => .error ⟨.CONVERSATION_NOT_FOUND,
          "Conversation not found: " ++ req.sessionId,
          "Conversation not found.", 404⟩
      | .ok messages =>
        let limitedMessages :=
          match req.limit with
          | some l => if l == 0 then messages else jsSliceFrom messages (-l)
          | none => messages
        .ok ⟨req.sessionId, limitedMessages.map toHistoryMessage⟩

/-! ## Decidable equality on results, and shared concrete inputs -/

deriving instance DecidableEq for Except

/-- Valid version-4 conversation identifier used by the concrete runs. -/
def exConvId : String := "123e4567-e89b-42d3-a456-426614174000"

/-- User-turn row with timestamp 1000. -/
def exM1 : Message := ⟨"m1", exConvId, .user, "hi", 1000⟩

/-- Assistant-turn row inserted after `exM1` with the same timestamp 1000 (an
equal-timestamp burst: `Date.now()` has millisecond resolution). -/
def exM2 : Message := ⟨"m2", exConvId, .assistant, "yo", 1000⟩

/-- Store with one conversation holding the equal-timestamp burst. -/
def exStore : Store := ⟨[⟨exConvId, 5⟩], [exM1, exM2]⟩

/-- User-turn row with timestamp 1000, for the strictly increasing store. -/
def exN1 : Message := ⟨"m1", exConvId, .user, "hi", 1000⟩

/-- Assistant-turn row with the strictly later timestamp 2000. -/
def exN2 : Message := ⟨"m2", exConvId, .assistant, "yo", 2000⟩

/-- Store whose conversation has strictly increasing timestamps. -/
def exStoreAsc : Store := ⟨[⟨exConvId, 5⟩], [exN1, exN2]⟩

/-- Typed gateway error used by the failing-gateway runs. -/
def exLLMErr : LLMError := ⟨.RATE_LIMIT, "quota exceeded", "Our AI service is currently busy.", some 429⟩

/-- Environment whose injected LLM service always succeeds with `"reply"`. -/
def exEnvOk : ChatEnv := ⟨exConvId, 5, "mu", 6, "ma", 7, "ts", fun _ _ => .ok "reply"⟩

/-- Environment whose injected LLM service always fails with `exLLMErr`. -/
def exEnvFail : ChatEnv := ⟨exConvId, 5, "mu", 6, "ma", 7, "ts", fun _ _ => .error exLLMErr⟩

/-! ## Helper lemmas -/

/-- Inserting an element no smaller than the tail element `m` keeps `m` last. -/
theorem orderedInsert_concat (a m : Message) (l : List Message) (h : msgLE a m) :
    List.orderedInsert msgLE a (l ++ [m]) = List.orderedInsert msgLE a l ++ [m] := by
  induction l with
  | nil =>
    simp only [List.nil_append, List.orderedInsert]
    rw [if_pos h]
    rfl
  | cons b t ih =>
    simp only [List.cons_append, List.orderedInsert, List.append_eq]
    by_cases hab : msgLE a b
    · rw [if_pos hab, if_pos hab]
      rfl
    · rw [if_neg hab, if_neg hab, ih]
      rfl

/-- Stability at the end: sorting after appending a row whose timestamp is at
least every existing one just appends it to the sorted list. -/
theorem insertionSort_concat (m : Message) (l : List Message)
    (h : ∀ x ∈ l, msgLE x m) :
    List.insertionSort msgLE (l ++ [m]) = List.insertionSort msgLE l ++ [m] := by
  induction l with
  | nil => rfl
  | cons a t ih =>
    simp only [List.cons_append, List.insertionSort, List.append_eq]
    rw [ih fun x hx => h x (List.mem_cons_of_mem a hx),
      orderedInsert_concat a m _ (h a (List.mem_cons_self a t))]

/-- Uniqueness of a sorted permutation when the reference list has pairwise
strictly increasing timestamps. -/
theorem eq_of_perm_sorted_pairwise :
    ∀ (l out : List Message), out.Perm l → List.Sorted msgLE out →
      List.Pairwise msgLT l → out = l := by
  intro l
  induction l with
  | nil => exact fun out hp _ _ => hp.eq_nil
  | cons a t ih =>
    intro out hp hs hpl
    cases out with
    | nil =>
      have := hp.length_eq
      simp at this
    | cons b out2 =>
      have hba : b = a := by
        by_contra hne
        have hbt : b ∈ t := by
          have hbmem : b ∈ a :: t := hp.mem_iff.mp (List.mem_cons_self b out2)
          cases List.mem_cons.mp hbmem with
          | inl heq => exact absurd heq hne
          | inr hmem => exact hmem
        have halt : msgLT a b := (List.pairwise_cons.mp hpl).1 b hbt
        have haout : a ∈ out2 := by
          have hamem : a ∈ b :: out2 := hp.mem_iff.mpr (List.mem_cons_self a t)
          cases List.mem_cons.mp hamem with
          | inl heq => exact absurd heq.symm hne
          | inr hmem => exact hmem
        have hble : msgLE b a := (List.sorted_cons.mp hs).1 a haout
        exact absurd (Nat.lt_of_lt_of_le halt hble) (Nat.lt_irrefl _)
      subst hba
      have hp2 : out2.Perm t := hp.cons_inv
      rw [ih out2 hp2 (List.sorted_cons.mp hs).2 (List.pairwise_cons.mp hpl).2]

/-- Under the ordering contract alone: a sorted permutation of rows with one
strictly-latest appended row must end with that row, the remaining elements
being a sorted permutation of the other rows. -/
theorem sorted_perm_concat_strict_max (l out : List Message) (m : Message)
    (hmax : ∀ x ∈ l, x.created_at < m.created_at)
    (hp : out.Perm (l ++ [m])) (hs : List.Sorted msgLE out) :
    ∃ out2, out = out2 ++ [m] ∧ out2.Perm l ∧ List.Sorted msgLE out2 := by
  have hne : out ≠ [] := by
    intro h
    rw [h] at hp
    have := hp.length_eq
    simp at this
  obtain ⟨out2, y, hsplit⟩ : ∃ out2 y, out = out2 ++ [y] :=
    ⟨out.dropLast, out.getLast hne, (List.dropLast_append_getLast hne).symm⟩
  subst hsplit
  have hym : y = m := by
    have hy : y ∈ l ++ [m] := hp.mem_iff.mp (by simp)
    rcases List.mem_append.mp hy with hyl | hym
    · exfalso
      have hmy : m ∈ out2 ++ [y] := hp.mem_iff.mpr (by simp)
      rcases List.mem_append.mp hmy with hm2 | hmyy
      · have hle : msgLE m y :=
          (List.pairwise_append.mp hs).2.2 m hm2 y (by simp)
        exact absurd (Nat.lt_of_le_of_lt hle (hmax y hyl)) (Nat.lt_irrefl _)
      · have hmyeq : m = y := by simpa using hmyy
        rw [← hmyeq] at hyl
        exact absurd (hmax m hyl) (Nat.lt_irrefl _)
    · simpa using hym
  subst hym
  refine ⟨out2, rfl, ?_, (List.pairwise_append.mp hs).1⟩
  rw [List.perm_iff_count] at hp ⊢
  intro a
  have hc := hp a
  simp only [List.count_append] at hc
  omega

/-- A segment matcher accepts every word a pointwise smaller matcher with the
same widths accepts. -/
theorem matchSegs_imp {segs1 segs2 : List (Nat × (Char → Bool))} (cs : List Char)
    (hf : List.Forall₂ (fun a b => a.1 = b.1 ∧ ∀ c, a.2 c = true → b.2 c = true)
      segs1 segs2)
    (h : matchSegs segs1 cs = true) : matchSegs segs2 cs = true := by
  induction hf generalizing cs with
  | nil => exact h
  | cons hab hrest ih =>
    simp only [matchSegs, Bool.and_eq_true] at h ⊢
    obtain ⟨⟨hlen, hall⟩, htail⟩ := h
    rw [← hab.1]
    refine ⟨⟨hlen, ?_⟩, ih _ htail⟩
    rw [List.all_eq_true] at hall ⊢
    exact fun x hx => hab.2 x (hall x hx)

/-- Lowercase hex digits lie in the case-insensitive hex class. -/
theorem isHexLower_le : ∀ c, isHexLower c = true → isHexAnyCase c = true := by
  intro c h
  simp only [isHexLower, Bool.or_eq_true] at h
  simp only [isHexAnyCase, Bool.or_eq_true]
  tauto

/-- Lowercase variant nibbles lie in the case-insensitive variant class. -/
theorem isVariantLower_le : ∀ c, isVariantLower c = true → isVariantAnyCase c = true := by
  intro c h
  simp only [isVariantAnyCase, Bool.or_eq_true]
  tauto

/-- A canonical lowercase version-4 UUID passes the orchestrator's regex. -/
theorem uuidV4Format_isValidUUID (s : String) (h : uuidV4Format s = true) :
    isValidUUID s = true := by
  refine matchSegs_imp s.data ?_ h
  refine .cons ⟨rfl, isHexLower_le⟩ ?_
  refine .cons ⟨rfl, fun c hc => hc⟩ ?_
  refine .cons ⟨rfl, isHexLower_le⟩ ?_
  refine .cons ⟨rfl, fun c hc => hc⟩ ?_
  refine .cons ⟨rfl, fun c hc => hc⟩ ?_
  refine .cons ⟨rfl, isHexLower_le⟩ ?_
  refine .cons ⟨rfl, fun c hc => hc⟩ ?_
  refine .cons ⟨rfl, isVariantLower_le⟩ ?_
  refine .cons ⟨rfl, isHexLower_le⟩ ?_
  refine .cons ⟨rfl, fun c hc => hc⟩ ?_
  exact .cons ⟨rfl, isHexLower_le⟩ .nil

/-- Looking a conversation up only reads the conversations table. -/
theorem getConversation_mk (cs : List Conversation) (ms ms2 : List Message)
    (cid : String) :
    getConversation ⟨cs, ms⟩ cid = getConversation ⟨cs, ms2⟩ cid := rfl

/-- A freshly inserted conversation row is found. -/
theorem getConversation_concat_isSome (cs : List Conversation) (ms : List Message)
    (id : String) (t : Nat) :
    (getConversation ⟨cs ++ [⟨id, t⟩], ms⟩ id).isSome = true := by
  rw [getConversation, List.find?_isSome]
  exact ⟨⟨id, t⟩, by simp⟩

/-- Filtering the messages table after an insert at the end. -/
theorem messagesOf_concat (cs : List Conversation) (ms : List Message)
    (m : Message) (cid : String) (h : m.conversation_id = cid) :
    messagesOf ⟨cs, ms ++ [m]⟩ cid = messagesOf ⟨cs, ms⟩ cid ++ [m] := by
  simp [messagesOf, List.filter_append, h]

/-- The executable read satisfies the relational contract of the query. -/
theorem getConversationMessages_chronoRead (s : Store) (cid : String)
    (out : List Message) (h : getConversationMessages s cid = .ok out) :
    chronoRead s cid out := by
  unfold getConversationMessages at h
  split at h
  · cases h
    exact ⟨List.perm_insertionSort msgLE _, List.sorted_insertionSort msgLE _⟩
  · cases h

/-- Inversion of a successful conversation resolution: either the truthy
session id resolved to an existing conversation and the store is untouched,
or no truthy id was supplied and a fresh conversation row was inserted. -/
theorem getOrCreateConversation_inv (s : Store) (fid : String) (t : Nat)
    (sid? : Option String) (cid : String) (s1 : Store)
    (h : getOrCreateConversation s fid t sid? = .ok (cid, s1)) :
    (sessionIdIfTruthy sid? = some cid ∧ s1 = s ∧
        (getConversation s cid).isSome = true) ∨
      (sessionIdIfTruthy sid? = none ∧ cid = fid ∧
        s1 = ⟨s.conversations ++ [⟨fid, t⟩], s.messages⟩) := by
  unfold getOrCreateConversation at h
  split at h
  case _ sid hsid =>
    split at h
    case _ c hc =>
      cases h
      exact .inl ⟨hsid, rfl, by rw [Option.isSome_iff_exists]; exact ⟨c, hc⟩⟩
    case _ => cases h
  case _ hsid =>
    simp only [createConversation] at h
    cases h
    exact .inr ⟨hsid, rfl, rfl⟩

/-- Every conversation a successful resolution returns exists in the store it
returns, whose messages table is unchanged. -/
theorem getOrCreateConversation_ok (s : Store) (fid : String) (t : Nat)
    (sid? : Option String) (cid : String) (s1 : Store)
    (h : getOrCreateConversation s fid t sid? = .ok (cid, s1)) :
    (getConversation s1 cid).isSome = true ∧ s1.messages = s.messages := by
  rcases getOrCreateConversation_inv s fid t sid? cid s1 h with
    ⟨_, hes, hsome⟩ | ⟨_, hcid, hes⟩
  · rw [hes]
    exact ⟨hsome, rfl⟩
  · rw [hes, hcid]
    exact ⟨getConversation_concat_isSome s.conversations s.messages fid t, rfl⟩

/-- A request that passes validation with a truthy session id has a session id
the regex accepts. -/
theorem validate_none_uuid (req : SendMessageRequest) (sid : String)
    (hs : sessionIdIfTruthy req.sessionId = some sid)
    (hv : validateSendMessageRequest req = none) : isValidUUID sid = true := by
  unfold validateSendMessageRequest at hv
  split at hv
  · cases hv
  · split at hv
    · cases hv
    · rw [hs] at hv
      split at hv
      case _ sid2 heq =>
        injection heq with heq2
        subst heq2
        split at hv
        case _ hu => exact hu
        case _ => cases hv
      case _ heq => cases heq

/-- Saving the user message when the conversation exists appends one row. -/
theorem saveUserMessage_inv (s : Store) (cid msg mid : String) (t : Nat)
    (s2 : Store) (h : saveUserMessage s cid msg mid t = .ok s2) :
    s2 = ⟨s.conversations, s.messages ++ [⟨mid, cid, .user, msg, t⟩]⟩ := by
  unfold saveUserMessage saveMessage at h
  split at h
  case _ ms heq =>
    cases h
    split at heq
    · cases heq
      rfl
    · cases heq
  case _ => cases h

/-- Saving the assistant message when the conversation exists appends one row. -/
theorem saveAssistantMessage_inv (s : Store) (cid msg mid : String) (t : Nat)
    (s2 : Store) (h : saveAssistantMessage s cid msg mid t = .ok s2) :
    s2 = ⟨s.conversations, s.messages ++ [⟨mid, cid, .assistant, msg, t⟩]⟩ := by
  unfold saveAssistantMessage saveMessage at h
  split at h
  case _ ms heq =>
    cases h
    split at heq
    · cases heq
      rfl
    · cases heq
  case _ => cases h

/-- Computation rule: the user-message save succeeds when the conversation
exists. -/
theorem saveUserMessage_eq (s : Store) (cid msg mid : String) (t : Nat)
    (h : (getConversation s cid).isSome = true) :
    saveUserMessage s cid msg mid t =
      .ok ⟨s.conversations, s.messages ++ [⟨mid, cid, .user, msg, t⟩]⟩ := by
  unfold saveUserMessage saveMessage
  rw [if_pos h]

/-- Computation rule: reading the messages of an existing conversation. -/
theorem getConversationMessages_eq (s : Store) (cid : String)
    (h : (getConversation s cid).isSome = true) :
    getConversationMessages s cid =
      .ok (List.insertionSort msgLE (messagesOf s cid)) := by
  unfold getConversationMessages
  rw [if_pos h]

/-- Computation rule: the history handed to the model is the sorted message
list without its last element. -/
theorem getConversationHistory_eq (s : Store) (cid : String)
    (hc : (getConversation s cid).isSome = true) :
    getConversationHistory s cid =
      .ok ((List.insertionSort msgLE (messagesOf s cid)).dropLast.map
        toConversationMessage) := by
  unfold getConversationHistory
  rw [getConversationMessages_eq s cid hc]

/-- Computation rule: history read without a limit on an existing conversation. -/
theorem getHistory_none_eq (s : Store) (cid : String)
    (hu : isValidUUID cid = true) (hc : (getConversation s cid).isSome = true) :
    getHistory s ⟨cid, none⟩ =
      .ok ⟨cid, (List.insertionSort msgLE (messagesOf s cid)).map toHistoryMessage⟩ := by
  obtain ⟨c, hcc⟩ := Option.isSome_iff_exists.mp hc
  unfold getHistory
  rw [if_neg (by simp [hu]), hcc, getConversationMessages_eq s cid hc]

/-- Computation rule: history read with a limit on an existing conversation. -/
theorem getHistory_some_eq (s : Store) (cid : String) (l : Int)
    (hu : isValidUUID cid = true) (hc : (getConversation s cid).isSome = true) :
    getHistory s ⟨cid, some l⟩ =
      .ok ⟨cid, (if l == 0 then List.insertionSort msgLE (messagesOf s cid)
        else jsSliceFrom (List.insertionSort msgLE (messagesOf s cid)) (-l)).map
          toHistoryMessage⟩ := by
  obtain ⟨c, hcc⟩ := Option.isSome_iff_exists.mp hc
  unfold getHistory
  rw [if_neg (by simp [hu]), hcc, getConversationMessages_eq s cid hc]

/-- Computation rule: a negative slice index takes the tail of the list. -/
theorem jsSliceFrom_negNat {α : Type} (xs : List α) (k : Nat) (hk : 0 < k) :
    jsSliceFrom xs (-(k : Int)) = xs.drop (xs.length - k) := by
  unfold jsSliceFrom
  rw [if_pos (by omega)]
  simp

/-! ## Claims -/

/-- Claim C1: for every `sendMessage` call that passes validation and has
persisted the user's message, a gateway failure with any typed `LLMError`
makes `sendMessage` fail with an `AI_SERVICE_ERROR` carrying the gateway's
user-safe message, while the user's message remains stored and a subsequent
`getHistory` on the conversation still returns it (persist-before-generate
ordering). -/
theorem C1_gateway_failure_keeps_user_message (s : Store) (env : ChatEnv)
    (req : SendMessageRequest) (cid : String) (s1 : Store) (e : LLMError)
    (hv : validateSendMessageRequest req = none)
    (hr : getOrCreateConversation s env.freshConvId env.convTime req.sessionId =
      .ok (cid, s1))
    (hu : isValidUUID cid = true)
    (hllm : ∀ hist m, env.llm hist m = .error e) :
    ∃ ce s2, sendMessage s env req = (.error ce, s2) ∧
      ce.type = .AI_SERVICE_ERROR ∧ ce.userMessage = e.userMessage ∧
      (⟨env.userMsgId, cid, .user, req.message, env.userMsgTime⟩ : Message) ∈
        s2.messages ∧
      ∃ r, getHistory s2 ⟨cid, none⟩ = .ok r ∧
        toHistoryMessage ⟨env.userMsgId, cid, .user, req.message, env.userMsgTime⟩ ∈
          r.messages := by
  obtain ⟨hc1, -⟩ :=
    getOrCreateConversation_ok s env.freshConvId env.convTime req.sessionId cid s1 hr
  have hc2 : (getConversation
      ⟨s1.conversations,
        s1.messages ++ [⟨env.userMsgId, cid, .user, req.message, env.userMsgTime⟩]⟩
      cid).isSome = true := hc1
  have hsend : sendMessage s env req =
      (.error ⟨.AI_SERVICE_ERROR, "LLM error: " ++ e.message, e.userMessage,
        jsStatusOr500 e.statusCode⟩,
       ⟨s1.conversations,
        s1.messages ++ [⟨env.userMsgId, cid, .user, req.message, env.userMsgTime⟩]⟩) := by
    unfold sendMessage
    rw [hv, hr]
    simp only [saveUserMessage_eq s1 cid req.message env.userMsgId env.userMsgTime hc1,
      getConversationHistory_eq _ cid hc2, generateAIReply, hllm]
  refine ⟨_, _, hsend, rfl, rfl, ?_, ?_⟩
  · simp
  · refine ⟨_, getHistory_none_eq _ cid hu hc2, ?_⟩
    apply List.mem_map_of_mem
    rw [List.mem_insertionSort]
    unfold messagesOf
    simp

/-- Witness for C1 at a concrete run: empty store, fresh conversation, a
gateway that always fails with `exLLMErr`. -/
theorem C1_gateway_failure_keeps_user_message_witness :
    ∃ ce s2, sendMessage ⟨[], []⟩ exEnvFail ⟨"hello", none⟩ = (.error ce, s2) ∧
      ce.type = .AI_SERVICE_ERROR ∧ ce.userMessage = exLLMErr.userMessage ∧
      (⟨"mu", exConvId, .user, "hello", 6⟩ : Message) ∈ s2.messages ∧
      ∃ r, getHistory s2 ⟨exConvId, none⟩ = .ok r ∧
        toHistoryMessage ⟨"mu", exConvId, .user, "hello", 6⟩ ∈ r.messages :=
  C1_gateway_failure_keeps_user_message ⟨[], []⟩ exEnvFail ⟨"hello", none⟩ exConvId
    ⟨[⟨exConvId, 5⟩], []⟩ exLLMErr (by decide) (by decide) (by decide)
    (fun _ _ => rfl)

/-- Claim C2 counterexample: the supplied session id `""` is malformed (the
regex rejects it) yet falsy, so validation skips it: `sendMessage` succeeds
and creates a new conversation instead of failing with `INVALID_INPUT` and
leaving the store unchanged. -/
theorem C2_empty_sessionId_accepted :
    isValidUUID "" = false ∧
    (sendMessage ⟨[], []⟩ exEnvOk ⟨"hello", some ""⟩).1 =
      .ok ⟨"reply", exConvId, "ts"⟩ ∧
    (sendMessage ⟨[], []⟩ exEnvOk ⟨"hello", some ""⟩).2 ≠ (⟨[], []⟩ : Store) :=
  ⟨by decide, by decide, by decide⟩

/-- Claim C2 (amended): a message that is empty, whitespace-only or longer
than 10,000 units, or a truthy (non-empty) supplied session id the regex
rejects, makes `sendMessage` fail with `INVALID_INPUT` before any persistence
or model call, the store left unchanged; a supplied empty-string session id is
falsy and is instead treated as absent. -/
theorem C2_validation_fail_fast (s : Store) (env : ChatEnv)
    (req : SendMessageRequest)
    (h : jsTrim req.message = "" ∨ 10000 < req.message.length ∨
      (∃ sid, sessionIdIfTruthy req.sessionId = some sid ∧
        isValidUUID sid = false)) :
    ∃ e, sendMessage s env req = (.error e, s) ∧ e.type = .INVALID_INPUT := by
  have hval : ∃ e, validateSendMessageRequest req = some e ∧
      e.type = .INVALID_INPUT := by
    unfold validateSendMessageRequest
    split
    · exact ⟨_, rfl, rfl⟩
    · split
      · exact ⟨_, rfl, rfl⟩
      · case _ h1 h2 =>
        rcases h with htrim | hlen | ⟨sid, hsid, hbad⟩
        · exact absurd (by simp [htrim]) h1
        · exact absurd hlen h2
        · rw [hsid]
          refine ⟨⟨.INVALID_INPUT, "Invalid session ID format",
            "Invalid session ID. Please start a new conversation.", 400⟩, ?_, rfl⟩
          simp [hbad]
  obtain ⟨e, he, htype⟩ := hval
  refine ⟨e, ?_, htype⟩
  unfold sendMessage
  rw [he]

/-- Witness for C2 at a whitespace-only message on the empty store. -/
theorem C2_validation_fail_fast_witness :
    ∃ e, sendMessage (⟨[], []⟩ : Store) exEnvOk ⟨"   ", none⟩ =
      (.error e, (⟨[], []⟩ : Store)) ∧ e.type = .INVALID_INPUT :=
  C2_validation_fail_fast ⟨[], []⟩ exEnvOk ⟨"   ", none⟩ (.inl (by decide))

/-- Claim C3 counterexample: for the equal-timestamp burst of `exStore` (user
row inserted before the assistant row, both at time 1000) the ordering
contract of the read also admits the reversed list, so the code does not
guarantee that reads reproduce insertion order, nor that the user turn
precedes the assistant turn, under equal timestamps: the table stores no
sequence position and the query orders by wall-clock timestamp alone. -/
theorem C3_tie_order_not_reproduced :
    chronoRead exStore exConvId [exM2, exM1] ∧
      [exM2, exM1] ≠ messagesOf exStore exConvId :=
  ⟨⟨by decide, by decide⟩, by decide⟩

/-- Claim C3 (amended): every read satisfying the query's ordering contract is
in non-decreasing creation order, and whenever the conversation's rows carry
pairwise strictly increasing timestamps the read reproduces insertion order
exactly; under equal-timestamp ties the relative order is not specified. -/
theorem C3_reads_sorted_and_insertion_ordered (s : Store) (cid : String)
    (out : List Message) (h : chronoRead s cid out) :
    List.Sorted msgLE out ∧
      (List.Pairwise msgLT (messagesOf s cid) → out = messagesOf s cid) :=
  ⟨h.2, fun hp => eq_of_perm_sorted_pairwise _ _ h.1 h.2 hp⟩

/-- Witness for C3 on the strictly increasing store. -/
theorem C3_reads_sorted_and_insertion_ordered_witness :
    List.Sorted msgLE [exN1, exN2] ∧ [exN1, exN2] = messagesOf exStoreAsc exConvId := by
  have h := C3_reads_sorted_and_insertion_ordered exStoreAsc exConvId [exN1, exN2]
    ⟨by decide, by decide⟩
  exact ⟨h.1, h.2 (by decide)⟩

/-- Claim C4: after the user's message is appended with a clock reading
strictly later than every stored timestamp of the conversation, the history
computed for the model is exactly the conversation's message sequence as it
was before the append — the just-appended message is excluded.  The second
conjunct states this at the level of the query's ordering contract alone
(`chronoRead`, no tie resolution assumed): every admissible read of the
post-append conversation is an admissible read of the pre-append conversation
followed by the new row, so dropping the last element excludes exactly the
just-appended message. -/
theorem C4_history_reflects_prior_state (s : Store) (cid msg mid : String)
    (t : Nat) (hc : (getConversation s cid).isSome = true)
    (hm : ∀ x ∈ messagesOf s cid, x.created_at < t) :
    ∃ m s2, saveMessage s cid .user msg mid t = .ok (m, s2) ∧
      (∃ l, getConversationMessages s cid = .ok l ∧
        getConversationHistory s2 cid = .ok (l.map toConversationMessage)) ∧
      (∀ out, chronoRead s2 cid out →
        ∃ prior, chronoRead s cid prior ∧ out = prior ++ [m]) := by
  have hsave : saveMessage s cid .user msg mid t =
      .ok (⟨mid, cid, .user, msg, t⟩,
        ⟨s.conversations, s.messages ++ [⟨mid, cid, .user, msg, t⟩]⟩) := by
    unfold saveMessage
    rw [if_pos hc]
  have hc2 : (getConversation
      ⟨s.conversations, s.messages ++ [⟨mid, cid, .user, msg, t⟩]⟩ cid).isSome =
      true := hc
  refine ⟨_, _, hsave, ⟨_, getConversationMessages_eq s cid hc, ?_⟩, ?_⟩
  · rw [getConversationHistory_eq _ cid hc2,
      messagesOf_concat s.conversations s.messages _ cid rfl,
      insertionSort_concat ⟨mid, cid, .user, msg, t⟩ (messagesOf s cid)
        (fun x hx => Nat.le_of_lt (hm x hx)),
      List.dropLast_concat]
  · intro out hout
    obtain ⟨hperm, hsort⟩ := hout
    rw [messagesOf_concat s.conversations s.messages _ cid rfl] at hperm
    obtain ⟨out2, heq, hp2, hs2⟩ :=
      sorted_perm_concat_strict_max (messagesOf s cid) out
        ⟨mid, cid, .user, msg, t⟩ (fun x hx => hm x hx) hperm hsort
    exact ⟨out2, ⟨hp2, hs2⟩, heq⟩

/-- Witness for C4 on the strictly increasing store at clock reading 3000. -/
theorem C4_history_reflects_prior_state_witness :
    ∃ m s2, saveMessage exStoreAsc exConvId .user "new" "m3" 3000 = .ok (m, s2) ∧
      (∃ l, getConversationMessages exStoreAsc exConvId = .ok l ∧
        getConversationHistory s2 exConvId = .ok (l.map toConversationMessage)) ∧
      (∀ out, chronoRead s2 exConvId out →
        ∃ prior, chronoRead exStoreAsc exConvId prior ∧ out = prior ++ [m]) :=
  C4_history_reflects_prior_state exStoreAsc exConvId "new" "m3" 3000
    (by decide) (by decide)

/-- Claim C5 counterexample: on a conversation with two stored messages a
supplied limit of 0 satisfies `k ≤ n` but `getHistory` returns the whole
history (the falsy limit is ignored) rather than the last 0 messages. -/
theorem C5_limit_zero_not_tail_slice :
    getHistory exStore ⟨exConvId, some 0⟩ =
      .ok ⟨exConvId, [⟨"m1", .user, "hi", 1000⟩, ⟨"m2", .assistant, "yo", 1000⟩]⟩ ∧
    ([⟨"m1", .user, "hi", 1000⟩, ⟨"m2", .assistant, "yo", 1000⟩] :
      List HistoryMessage) ≠ [] :=
  ⟨by decide, by decide⟩

/-- Claim C5 (amended): for every positive supplied limit `k` on an existing
conversation, `getHistory` returns the last `k` messages of the full history
in chronological order when `k ≤ n`, and the full history unchanged when
`k ≥ n`; a limit of 0 is falsy and returns the full history instead. -/
theorem C5_positive_limit_is_tail_slice (s : Store) (cid : String) (k : Int)
    (hu : isValidUUID cid = true)
    (hc : (getConversation s cid).isSome = true) (hk : 1 ≤ k) :
    ∃ msgs, getConversationMessages s cid = .ok msgs ∧
      getHistory s ⟨cid, some k⟩ =
        .ok ⟨cid, (msgs.map toHistoryMessage).drop (msgs.length - k.toNat)⟩ ∧
      (msgs.length ≤ k.toNat →
        getHistory s ⟨cid, some k⟩ = .ok ⟨cid, msgs.map toHistoryMessage⟩) := by
  refine ⟨_, getConversationMessages_eq s cid hc, ?_, ?_⟩
  · rw [getHistory_some_eq s cid k hu hc,
      if_neg (by simp only [beq_iff_eq]; omega)]
    unfold jsSliceFrom
    rw [if_pos (by omega), neg_neg, List.map_drop]
  · intro hlen
    rw [getHistory_some_eq s cid k hu hc,
      if_neg (by simp only [beq_iff_eq]; omega)]
    unfold jsSliceFrom
    rw [if_pos (by omega), neg_neg]
    have h0 : (List.insertionSort msgLE (messagesOf s cid)).length - k.toNat = 0 := by
      omega
    rw [h0, List.drop_zero]

/-- Witness for C5 at limit 1 on the two-message store. -/
theorem C5_positive_limit_is_tail_slice_witness :
    ∃ msgs, getConversationMessages exStoreAsc exConvId = .ok msgs ∧
      getHistory exStoreAsc ⟨exConvId, some 1⟩ =
        .ok ⟨exConvId, (msgs.map toHistoryMessage).drop
          (msgs.length - (1 : Int).toNat)⟩ ∧
      (msgs.length ≤ (1 : Int).toNat →
        getHistory exStoreAsc ⟨exConvId, some 1⟩ =
          .ok ⟨exConvId, msgs.map toHistoryMessage⟩) :=
  C5_positive_limit_is_tail_slice exStoreAsc exConvId 1 (by decide) (by decide)
    (by decide)

/-- Claim C6: the code arms a 30000 ms timer that calls `abort()` on an
`AbortController`, but the provider invocation passes only the prompt: no
abort signal and no per-request timeout reach the call, so exceeding the
timeout cannot abort the provider call or surface a `TimedOut` failure. -/
theorem C6_abort_signal_never_attached (apiKey : String)
    (history : List ConversationMessage) (userMessage : String) :
    (generateContentInvocation (mergedConfig apiKey) history userMessage).signalAttached
      = false ∧
    (generateContentInvocation (mergedConfig apiKey) history userMessage).timeoutOption
      = none ∧
    DEFAULT_CONFIG.timeoutMs = 30000 :=
  ⟨rfl, rfl, rfl⟩

/-- Claim C7: the prompt builder's history formatting is a total function that
renders at most the 10 most recent turns (older turns silently dropped,
recency by position in the sequence), each turn as `"<RoleLabel>: <content>"`
with turns separated by a blank line, and substitutes a fixed
start-of-conversation marker for an empty history. -/
theorem C7_format_history (history : List ConversationMessage) :
    formatConversationHistory [] 10 = "This is the start of the conversation." ∧
    (history.drop (history.length - 10)).length ≤ 10 ∧
    List.IsSuffix (history.drop (history.length - 10)) history ∧
    (history ≠ [] →
      formatConversationHistory history 10 =
        "Previous conversation:\n\n" ++ String.intercalate "\n\n"
          ((history.drop (history.length - 10)).map (fun msg =>
            (if msg.role = MessageRole.user then "Customer" else "Agent") ++
              ": " ++ msg.content))) := by
  refine ⟨rfl, ?_, List.drop_suffix _ _, ?_⟩
  · rw [List.length_drop]
    omega
  · intro hne
    unfold formatConversationHistory
    rw [if_neg (by simp [List.isEmpty_iff, hne]),
      jsSliceFrom_negNat history 10 (by norm_num)]

/-- Witness for C7 at the empty history and a singleton history. -/
theorem C7_format_history_witness :
    formatConversationHistory [] 10 = "This is the start of the conversation." ∧
    formatConversationHistory [⟨.user, "hi"⟩] 10 =
      "Previous conversation:\n\nCustomer: hi" := by
  refine ⟨(C7_format_history []).1, ?_⟩
  have h := (C7_format_history [⟨.user, "hi"⟩]).2.2.2 (by decide)
  rw [h]
  decide

/-- Claim C8: when the provider succeeds but returns an empty or
all-whitespace string, `generateReply` fails with an `UNKNOWN`-kind error
whose user-safe message says it is having trouble generating a response; the
empty response is never returned as a valid reply. -/
theorem C8_empty_provider_reply_rejected (cfg : LLMConfig)
    (provider : String → ProviderOutcome) (history : List ConversationMessage)
    (userMessage t : String) (hmsg : ¬jsTrim userMessage = "")
    (hp : provider (fullPrompt cfg history userMessage) = .success t)
    (ht : jsTrim t = "") :
    llmGenerateReply cfg provider history userMessage =
      .error ⟨.UNKNOWN, "Empty response from LLM",
        "I apologize, but I'm having trouble generating a response. Please try again.",
        some 500⟩ := by
  unfold llmGenerateReply
  rw [if_neg hmsg, hp]
  simp only [if_pos ht]

/-- Witness for C8 at a provider returning two spaces. -/
theorem C8_empty_provider_reply_rejected_witness :
    llmGenerateReply (mergedConfig "key") (fun _ => .success "  ") [] "hi" =
      .error ⟨.UNKNOWN, "Empty response from LLM",
        "I apologize, but I'm having trouble generating a response. Please try again.",
        some 500⟩ :=
  C8_empty_provider_reply_rejected (mergedConfig "key") (fun _ => .success "  ")
    [] "hi" "  " (by decide) rfl (by decide)

/-- Claim C9: on an existing conversation a supplied limit of 0 is ignored
(the entire history is returned rather than zero messages) and a negative
limit `-k` drops the `k` oldest messages. -/
theorem C9_nonpositive_limit_behaviour (s : Store) (cid : String) (k : Nat)
    (hu : isValidUUID cid = true)
    (hc : (getConversation s cid).isSome = true) (hk : 0 < k) :
    ∃ msgs, getConversationMessages s cid = .ok msgs ∧
      getHistory s ⟨cid, some 0⟩ = .ok ⟨cid, msgs.map toHistoryMessage⟩ ∧
      getHistory s ⟨cid, some (-(k : Int))⟩ =
        .ok ⟨cid, (msgs.map toHistoryMessage).drop k⟩ := by
  refine ⟨_, getConversationMessages_eq s cid hc, ?_, ?_⟩
  · rw [getHistory_some_eq s cid 0 hu hc]
    rfl
  · rw [getHistory_some_eq s cid (-(k : Int)) hu hc,
      if_neg (by simp only [beq_iff_eq]; omega), neg_neg]
    unfold jsSliceFrom
    rw [if_neg (by omega)]
    simp only [Int.toNat_natCast, List.map_drop]

/-- Witness for C9 at limits 0 and -1 on the two-message store. -/
theorem C9_nonpositive_limit_behaviour_witness :
    ∃ msgs, getConversationMessages exStoreAsc exConvId = .ok msgs ∧
      getHistory exStoreAsc ⟨exConvId, some 0⟩ =
        .ok ⟨exConvId, msgs.map toHistoryMessage⟩ ∧
      getHistory exStoreAsc ⟨exConvId, some (-((1 : Nat) : Int))⟩ =
        .ok ⟨exConvId, (msgs.map toHistoryMessage).drop 1⟩ :=
  C9_nonpositive_limit_behaviour exStoreAsc exConvId 1 (by decide) (by decide)
    (by decide)

/-- Claim C10: a fresh conversation identifier in the external generator's
canonical version-4 form satisfies the orchestrator's identifier validation,
so the session id returned by a successful `sendMessage` is well-formed and a
subsequent `getHistory` with it succeeds (in particular it is never rejected
as `INVALID_INPUT`). -/
theorem C10_returned_session_id_wellformed (s : Store) (env : ChatEnv)
    (req : SendMessageRequest) (resp : SendMessageResponse) (sOut : Store)
    (hgen : uuidV4Format env.freshConvId = true)
    (hok : sendMessage s env req = (.ok resp, sOut)) :
    isValidUUID resp.sessionId = true ∧
      ∃ r, getHistory sOut ⟨resp.sessionId, none⟩ = .ok r := by
  unfold sendMessage at hok
  split at hok
  case _ e heq => simp at hok
  case _ hval =>
    split at hok
    case _ e heq => simp at hok
    case _ cid s1 hres =>
      split at hok
      case _ e heq => simp at hok
      case _ s2 hsaveU =>
        split at hok
        case _ e heq => simp at hok
        case _ history hhist =>
          split at hok
          case _ e heq => simp at hok
          case _ aiReply hgenOk =>
            split at hok
            case _ e heq => simp at hok
            case _ s3 hsaveA =>
              rw [Prod.mk.injEq] at hok
              obtain ⟨h1, h2⟩ := hok
              injection h1 with h1
              subst h1
              subst h2
              have husr := saveUserMessage_inv s1 cid req.message env.userMsgId
                env.userMsgTime s2 hsaveU
              have hasst := saveAssistantMessage_inv s2 cid aiReply env.asstMsgId
                env.asstMsgTime s3 hsaveA
              rcases getOrCreateConversation_inv s env.freshConvId env.convTime
                req.sessionId cid s1 hres with
                ⟨hsid, hs1, hsome⟩ | ⟨hsid, hcid, hs1⟩
              · have huu : isValidUUID cid = true :=
                  validate_none_uuid req cid hsid hval
                have hc3 : (getConversation s3 cid).isSome = true := by
                  subst hasst husr hs1
                  exact hsome
                exact ⟨huu, _, getHistory_none_eq s3 cid huu hc3⟩
              · have huu : isValidUUID cid = true := by
                  rw [hcid]
                  exact uuidV4Format_isValidUUID _ hgen
                have hc3 : (getConversation s3 cid).isSome = true := by
                  subst hasst husr hs1 hcid
                  exact getConversation_concat_isSome s.conversations _
                    env.freshConvId env.convTime
                exact ⟨huu, _, getHistory_none_eq s3 cid huu hc3⟩

/-- Witness for C10 at a concrete successful run on the empty store. -/
theorem C10_returned_session_id_wellformed_witness :
    isValidUUID exConvId = true ∧
      ∃ r, getHistory
        ⟨[⟨exConvId, 5⟩], [⟨"mu", exConvId, .user, "hello", 6⟩,
          ⟨"ma", exConvId, .assistant, "reply", 7⟩]⟩
        ⟨exConvId, none⟩ = .ok r :=
  C10_returned_session_id_wellformed ⟨[], []⟩ exEnvOk ⟨"hello", none⟩
    ⟨"reply", exConvId, "ts"⟩
    ⟨[⟨exConvId, 5⟩], [⟨"mu", exConvId, .user, "hello", 6⟩,
      ⟨"ma", exConvId, .assistant, "reply", 7⟩]⟩
    (by decide) (by decide)
